import Mathlib

/-!
Verification of the core-tessie-api gateway.

Shallow embedding of the two Cloudflare worker entry points and the unified
upstream client:
  * `src_python/tessie_client.py` — `BaseAPIClient._request`, the per-API call
    catalogues and the `UnifiedTessieClient` pool.
  * `src_python/main.py` — the multi-API `fetch` router.
  * `src_python/utils/health.py` — `HealthChecker.check_all` aggregation.
  * `src/main.py` — the gated single-API `fetch` router and its auth gate.

Python strings are modelled as Lean `String`, with the Python operations
(`in`, `startswith`, `endswith`, `split`, `lstrip`) re-implemented over the
underlying character lists so that they can be reasoned about symbolically.
Upstream HTTP exchanges are abstracted by an oracle mapping each outbound
call to its outcome (2xx JSON body, non-2xx status + body text, or a
transport-level failure).  Wall-clock data (timestamps, durations) and the
structured log side channel are omitted: no property below mentions them.
-/

/-- JSON values, as produced by `request.json()` and the upstream APIs. -/
inductive J where
  | jNull : J
  | jBool (b : Bool) : J
  | jNum (n : Int) : J
  | jStr (s : String) : J
  | jArr (xs : List J) : J
  | jObj (fields : List (String × J)) : J

/-- Python dict truthiness and `.get` on a parsed JSON body: look a key up in
an object's fields (first binding wins, as in a dict built by `json.loads`). -/
def jObjGet (fields : List (String × J)) (k : String) : Option J :=
  (fields.find? (fun p => p.1 == k)).map (fun p => p.2)

/-! ### Python string primitives over character lists -/

/-- `l` starts with `pat` (Python `str.startswith`, list level). -/
def hasPrefixB (pat l : List Char) : Bool :=
  l.take pat.length == pat

/-- `l` ends with `pat` (Python `str.endswith`, list level). -/
def hasSuffixB (pat l : List Char) : Bool :=
  l.drop (l.length - pat.length) == pat

/-- `pat in l` (Python substring containment, list level). -/
def containsSub (pat : List Char) : List Char → Bool
  | [] => hasPrefixB pat []
  | a :: rest => hasPrefixB pat (a :: rest) || containsSub pat rest

/-- Python `str.split(sep)` for a one-character separator, list level. -/
def splitChar (c : Char) : List Char → List (List Char)
  | [] => [[]]
  | a :: rest =>
    if a == c then
      [] :: splitChar c rest
    else
      match splitChar c rest with
      | [] => [[a]]
      | h :: t => (a :: h) :: t

/-- Python `str.split(sep)` for a multi-character separator; `fuel` bounds the
recursion by the input length so the definition is structural and reduces in
the kernel.  `pat` is assumed non-empty (Python raises on an empty separator;
no call site below passes one). -/
def splitSubFuel (pat : List Char) : Nat → List Char → List (List Char)
  | _, [] => [[]]
  | 0, l => [l]
  | fuel + 1, a :: rest =>
    if hasPrefixB pat (a :: rest) then
      [] :: splitSubFuel pat fuel ((a :: rest).drop pat.length)
    else
      match splitSubFuel pat fuel rest with
      | [] => [[a]]
      | h :: t => (a :: h) :: t

/-- Python string equality (character-sequence equality). -/
def strEqB (a b : String) : Bool := a.data == b.data

/-- Python `a.startswith(b)`. -/
def pyStartsWith (s pat : String) : Bool := hasPrefixB pat.data s.data

/-- Python `a.endswith(b)`. -/
def pyEndsWith (s pat : String) : Bool := hasSuffixB pat.data s.data

/-- Python `pat in s`. -/
def pyContainsSub (s pat : String) : Bool := containsSub pat.data s.data

/-- Python `s.split(sep)` (non-empty separator). -/
def pySplit (s sep : String) : List String :=
  (splitSubFuel sep.data s.data.length s.data).map (fun l => String.mk l)

/-- Python `s[n:]`. -/
def pyDrop (s : String) (n : Nat) : String := String.mk (s.data.drop n)

/-- Python `s.lstrip("/")`. -/
def lstripSlash (s : String) : String :=
  String.mk (s.data.dropWhile (fun c => c == '/'))

/-- Python `str.upper()` (ASCII). -/
def pyUpper (s : String) : String := String.mk (s.data.map Char.toUpper)

/-- Python `str.lower()` (ASCII). -/
def pyLower (s : String) : String := String.mk (s.data.map Char.toLower)

/-- Python `str.strip()`. -/
def pyStrip (s : String) : String :=
  String.mk
    (((s.data.dropWhile Char.isWhitespace).reverse.dropWhile
        Char.isWhitespace).reverse)

/-- Decimal digit-string parsing (the non-empty all-digit check of `int`). -/
def parseDigits (l : List Char) : Option Nat :=
  if !l.isEmpty && l.all Char.isDigit then
    some (l.foldl (fun n c => n * 10 + (c.toNat - 48)) 0)
  else none

/-- Python `int(x)` on a string: surrounding whitespace stripped, optional
sign, then decimal digits (the underscore-separator form is not needed by
any routed request below). -/
def pyIntOfString (s : String) : Option Int :=
  match (pyStrip s).data with
  | '-' :: rest => (parseDigits rest).map (fun n => -(n : Int))
  | '+' :: rest => (parseDigits rest).map Int.ofNat
  | l => (parseDigits l).map Int.ofNat

/-- Python `int(x)` on a decoded JSON value.  On failure the `Except.error`
carries the exception detail (`ValueError`/`TypeError` message). -/
def pyInt : J → Except String Int
  | .jNum n => .ok n
  | .jBool b => .ok (if b then 1 else 0)
  | .jStr s =>
    match pyIntOfString s with
    | some n => .ok n
    | none => .error ("invalid literal for int() with base 10: '" ++ s ++ "'")
  | .jNull => .error "int() argument cannot be 'NoneType'"
  | .jArr _ => .error "int() argument cannot be 'list'"
  | .jObj _ => .error "int() argument cannot be 'dict'"

/-! ### The upstream client (`src_python/tessie_client.py`) -/

/-- `TessieAPIError(message, status_code)`. -/
structure TessieAPIError where
  message : String
  statusCode : Option Nat
deriving DecidableEq

/-- Outcome of one HTTP exchange performed by `BaseAPIClient._request`:
a 2xx response with a JSON body, a non-2xx response (status + body text,
what `raise_for_status` turns into `httpx.HTTPStatusError`), or a
transport-level failure (DNS, refusal, timeout, body-decode error — any
exception other than `HTTPStatusError`, carrying its `str(e)` detail). -/
inductive UpstreamOutcome where
  | success (body : J) : UpstreamOutcome
  | httpError (code : Nat) (text : String) : UpstreamOutcome
  | transportError (detail : String) : UpstreamOutcome

/-- The error-translation core of `BaseAPIClient._request` (lines 105–153):
2xx returns the JSON body; a non-2xx response becomes
`TessieAPIError(f"HTTP {code}: {body}", code)`; any other exception becomes
`TessieAPIError(f"Request failed: {detail}", None)`. -/
def baseRequest : UpstreamOutcome → Except TessieAPIError J
  | .success b => .ok b
  | .httpError code text =>
    .error ⟨"HTTP " ++ toString code ++ ": " ++ text, some code⟩
  | .transportError detail =>
    .error ⟨"Request failed: " ++ detail, none⟩

/-- One outbound call as shaped by a client method: API family, HTTP verb,
endpoint path handed to `_request`, optional query params, optional JSON
body. -/
structure HttpCall where
  api : String
  verb : String
  endpoint : String
  params : Option (List (String × String))
  jsonData : Option J

/-- Environment abstraction of the network: what each call would produce. -/
def Oracle : Type := HttpCall → UpstreamOutcome

/-- `TessieClient.list_vehicles`. -/
def tessieListVehiclesCall (onlyActive : Bool) : HttpCall :=
  ⟨"tessie", "GET", "vehicles",
    some [("only_active", if onlyActive then "true" else "false")], none⟩

/-- `TessieClient.state`. -/
def tessieStateCall (vin : String) : HttpCall :=
  ⟨"tessie", "GET", vin ++ "/state", none, none⟩

/-- `TessieClient.battery`. -/
def tessieBatteryCall (vin : String) : HttpCall :=
  ⟨"tessie", "GET", vin ++ "/battery", none, none⟩

/-- `TessieClient.wake`. -/
def tessieWakeCall (vin : String) : HttpCall :=
  ⟨"tessie", "POST", vin ++ "/wake", none, none⟩

/-- `TessieClient.start_charging`. -/
def tessieStartChargingCall (vin : String) : HttpCall :=
  ⟨"tessie", "POST", vin ++ "/command/start_charging", none, none⟩

/-- `TessieClient.stop_charging`. -/
def tessieStopChargingCall (vin : String) : HttpCall :=
  ⟨"tessie", "POST", vin ++ "/command/stop_charging", none, none⟩

/-- `TessieClient.set_charge_limit`: forwards `{"percent": percent}` as the
JSON body of `POST {vin}/command/set_charge_limit`. -/
def tessieSetChargeLimitCall (vin : String) (percent : Int) : HttpCall :=
  ⟨"tessie", "POST", vin ++ "/command/set_charge_limit", none,
    some (.jObj [("percent", .jNum percent)])⟩

/-- `TessieClient.lock`. -/
def tessieLockCall (vin : String) : HttpCall :=
  ⟨"tessie", "POST", vin ++ "/command/lock", none, none⟩

/-- `TessieClient.unlock`. -/
def tessieUnlockCall (vin : String) : HttpCall :=
  ⟨"tessie", "POST", vin ++ "/command/unlock", none, none⟩

/-- `TessieClient.flash_lights`. -/
def tessieFlashLightsCall (vin : String) : HttpCall :=
  ⟨"tessie", "POST", vin ++ "/command/flash_lights", none, none⟩

/-- `TessieClient.honk`. -/
def tessieHonkCall (vin : String) : HttpCall :=
  ⟨"tessie", "POST", vin ++ "/command/honk", none, none⟩

/-- `TessieClient.start_climate`. -/
def tessieStartClimateCall (vin : String) : HttpCall :=
  ⟨"tessie", "POST", vin ++ "/command/start_climate", none, none⟩

/-- `TessieClient.stop_climate`. -/
def tessieStopClimateCall (vin : String) : HttpCall :=
  ⟨"tessie", "POST", vin ++ "/command/stop_climate", none, none⟩

/-- `TeslemetryClient.ping`. -/
def telemetryPingCall : HttpCall := ⟨"telemetry", "GET", "ping", none, none⟩

/-- `TeslemetryClient.test`. -/
def telemetryTestCall : HttpCall := ⟨"telemetry", "GET", "test", none, none⟩

/-- `TeslemetryClient.metadata`. -/
def telemetryMetadataCall : HttpCall :=
  ⟨"telemetry", "GET", "metadata", none, none⟩

/-- `TeslemetryClient.scopes`. -/
def telemetryScopesCall : HttpCall := ⟨"telemetry", "GET", "scopes", none, none⟩

/-- `TeslemetryClient.server_side_polling`. -/
def telemetryPollingCall (vin : String) (enabled : Option Bool) : HttpCall :=
  match enabled with
  | none => ⟨"telemetry", "GET", "vehicles/" ++ vin ++ "/polling", none, none⟩
  | some true => ⟨"telemetry", "POST", "vehicles/" ++ vin ++ "/polling", none, none⟩
  | some false => ⟨"telemetry", "DELETE", "vehicles/" ++ vin ++ "/polling", none, none⟩

/-- `TeslemetryClient.vehicle_data_refresh`. -/
def telemetryRefreshCall (vin : String) : HttpCall :=
  ⟨"telemetry", "POST", "vehicles/" ++ vin ++ "/refresh", none, none⟩

/-- `FleetAPIClient.list_vehicles`. -/
def fleetListVehiclesCall : HttpCall :=
  ⟨"fleet", "GET", "api/1/vehicles", none, none⟩

/-- `FleetAPIClient.vehicle_data`: `params = {"endpoints": endpoints} if
endpoints else None` (an empty string is falsy and yields no params). -/
def fleetVehicleDataCall (vin : String) (endpoints : Option String) : HttpCall :=
  ⟨"fleet", "GET", "api/1/vehicles/" ++ vin ++ "/vehicle_data",
    (match endpoints with
     | some e => if e == "" then none else some [("endpoints", e)]
     | none => none), none⟩

/-- `FleetAPIClient.wake_up`. -/
def fleetWakeUpCall (vin : String) : HttpCall :=
  ⟨"fleet", "POST", "api/1/vehicles/" ++ vin ++ "/wake_up", none, none⟩

/-- `FleetAPIClient.command`. -/
def fleetCommandCall (vin cmd : String) (body : Option J) : HttpCall :=
  ⟨"fleet", "POST", "api/1/vehicles/" ++ vin ++ "/command/" ++ cmd, none, body⟩

/-- `FleetAPIClient.__init__` base-URL selection: region code `na`/`eu`/`cn`,
defaulting to `na` on an unrecognized code. -/
def fleetBaseUrl (region : String) : String :=
  if strEqB region "na" then "https://fleet-api.prd.na.vn.cloud.tesla.com"
  else if strEqB region "eu" then "https://fleet-api.prd.eu.vn.cloud.tesla.com"
  else if strEqB region "cn" then "https://fleet-api.prd.cn.vn.cloud.tesla.cn"
  else "https://fleet-api.prd.na.vn.cloud.tesla.com"

/-- Run one client method against the network oracle. -/
def callUpstream (o : Oracle) (c : HttpCall) : Except TessieAPIError J :=
  baseRequest (o c)

/-! ### Health aggregation (`src_python/utils/health.py`) -/

/-- `HealthStatus` enumeration. -/
inductive HealthStatus where
  | healthy : HealthStatus
  | degraded : HealthStatus
  | unhealthy : HealthStatus
  | unknown : HealthStatus
deriving DecidableEq

/-- The enum's string value. -/
def HealthStatus.value : HealthStatus → String
  | .healthy => "healthy"
  | .degraded => "degraded"
  | .unhealthy => "unhealthy"
  | .unknown => "unknown"

/-- Classification of a `TessieAPIError` in each `check_*` probe:
`DEGRADED if e.status_code and e.status_code < 500 else UNHEALTHY`
(`status_code` of `None` or `0` is falsy). -/
def statusFromError (e : TessieAPIError) : HealthStatus :=
  match e.statusCode with
  | some c => if c ≠ 0 ∧ c < 500 then .degraded else .unhealthy
  | none => .unhealthy

/-- `HealthChecker.check_tessie`: `UNKNOWN` when the client is not configured,
otherwise probe `list_vehicles(only_active=True)`.  Returns the resulting
status together with the upstream calls made. -/
def checkTessie (configured : Bool) (o : Oracle) : HealthStatus × List HttpCall :=
  if configured then
    match callUpstream o (tessieListVehiclesCall true) with
    | .ok _ => (.healthy, [tessieListVehiclesCall true])
    | .error e => (statusFromError e, [tessieListVehiclesCall true])
  else (.unknown, [])

/-- `HealthChecker.check_telemetry`: probe `ping()`. -/
def checkTelemetry (configured : Bool) (o : Oracle) : HealthStatus × List HttpCall :=
  if configured then
    match callUpstream o telemetryPingCall with
    | .ok _ => (.healthy, [telemetryPingCall])
    | .error e => (statusFromError e, [telemetryPingCall])
  else (.unknown, [])

/-- `HealthChecker.check_fleet`: probe `list_vehicles()`. -/
def checkFleet (configured : Bool) (o : Oracle) : HealthStatus × List HttpCall :=
  if configured then
    match callUpstream o fleetListVehiclesCall with
    | .ok _ => (.healthy, [fleetListVehiclesCall])
    | .error e => (statusFromError e, [fleetListVehiclesCall])
  else (.unknown, [])

/-- The overall-status reduction of `HealthChecker.check_all` (lines 243–252).
Each generator expression `for s in statuses if s != UNKNOWN` ranges over the
non-`UNKNOWN` entries, written here as one shared filter. -/
def overallStatus (statuses : List HealthStatus) : HealthStatus :=
  let cfgd := statuses.filter (fun s => s != HealthStatus.unknown)
  if cfgd.all (fun s => s == HealthStatus.healthy) then .healthy
  else if cfgd.any (fun s => s == HealthStatus.unhealthy) then .unhealthy
  else if cfgd.any (fun s => s == HealthStatus.degraded) then .degraded
  else .unknown

/-- `HealthChecker.check_all`: run the three probes, aggregate, and report.
The JSON body keeps the `status`/`apis` structure; the wall-clock fields
(`timestamp`, `response_time_ms`, `last_check`) and free-form error details
are omitted from the embedding — no verified property mentions them. -/
def checkAll (tessieCfg telemetryCfg fleetCfg : Bool) (o : Oracle) :
    J × List HttpCall :=
  let t := checkTessie tessieCfg o
  let m := checkTelemetry telemetryCfg o
  let f := checkFleet fleetCfg o
  let overall := overallStatus [t.1, m.1, f.1]
  (.jObj [("status", .jStr overall.value),
          ("apis", .jObj
            [("tessie", .jObj [("status", .jStr t.1.value)]),
             ("telemetry", .jObj [("status", .jStr m.1.value)]),
             ("fleet", .jObj [("status", .jStr f.1.value)])])],
   t.2 ++ m.2 ++ f.2)

/-- One `auth_status` entry of `HealthChecker.check_auth`: `None` means the
family is unconfigured; otherwise the probe result decides `valid`. -/
def authEntry (res : Option (Except TessieAPIError J)) : J :=
  match res with
  | none => .jObj [("valid", .jNull), ("message", .jStr "Token not configured")]
  | some (.ok _) =>
    .jObj [("valid", .jBool true), ("message", .jStr "Authentication successful")]
  | some (.error e) =>
    .jObj [("valid", .jBool false), ("message", .jStr e.message),
           ("status_code", match e.statusCode with
                           | some c => .jNum (Int.ofNat c)
                           | none => .jNull)]

/-- `HealthChecker.check_auth`: probe each configured family once
(`list_vehicles`, `test`, `list_vehicles`), `TessieAPIError` caught per
family.  The `timestamp` field is omitted (wall clock). -/
def checkAuth (tessieCfg telemetryCfg fleetCfg : Bool) (o : Oracle) :
    J × List HttpCall :=
  let t : Option (Except TessieAPIError J) × List HttpCall :=
    if tessieCfg then
      (some (callUpstream o (tessieListVehiclesCall true)), [tessieListVehiclesCall true])
    else (none, [])
  let m : Option (Except TessieAPIError J) × List HttpCall :=
    if telemetryCfg then (some (callUpstream o telemetryTestCall), [telemetryTestCall])
    else (none, [])
  let f : Option (Except TessieAPIError J) × List HttpCall :=
    if fleetCfg then (some (callUpstream o fleetListVehiclesCall), [fleetListVehiclesCall])
    else (none, [])
  (.jObj [("auth_status", .jObj
            [("tessie", authEntry t.1), ("telemetry", authEntry m.1),
             ("fleet", authEntry f.1)])],
   t.2 ++ m.2 ++ f.2)

/-! ### The multi-API router (`src_python/main.py`) -/

/-- An outbound HTTP response of either worker (`Response` with a JSON body). -/
structure Resp where
  status : Nat
  body : J

/-- `_json_response(data, status)`. -/
def jsonResponse (status : Nat) (body : J) : Resp := ⟨status, body⟩

/-- `_error_response(status, message)` = `_json_response({"error": message})`. -/
def errorResponse (status : Nat) (msg : String) : Resp :=
  ⟨status, .jObj [("error", .jStr msg)]⟩

/-- A Python exception in flight inside a `fetch` handler: either an
`HTTPException(status, message)` or any other exception with its `str(e)`. -/
inductive PyErr where
  | httpExc (status : Nat) (msg : String) : PyErr
  | generic (detail : String) : PyErr

/-- Python truthiness of an optional string (`if token:`): present and
non-empty. -/
def truthyStr : Option String → Bool
  | none => false
  | some s => !(s == "")

/-- An inbound request as seen by the multi-API worker.  `query` models the
output of `_parse_query_params` restricted to single-valued keys (no routed
parameter below is ever repeated); `jsonBody` is `await request.json()`,
whose failure carries the exception detail. -/
structure MultiRequest where
  method : String
  path : String
  query : List (String × String)
  contentType : Option String
  jsonBody : Except String J

/-- The worker's configuration bindings, plus the optional static-assets
collaborator (`env.ASSETS`), modelled by the response it would serve. -/
structure MultiEnv where
  tessieToken : Option String
  telemetryToken : Option String
  fleetToken : Option String
  fleetRegion : String
  assets : Option Resp

/-- `params.get(k)` on the parsed query mapping. -/
def getQueryParam (q : List (String × String)) (k : String) : Option String :=
  (q.find? (fun p => p.1 == k)).map (fun p => p.2)

/-- `_parse_json_body`: for `application/json` return the parsed body
(`HTTPException(400, "Invalid JSON body: ...")` when parsing raises); for any
other content type return `{}`. -/
def parseJsonBody (r : MultiRequest) : Except (Nat × String) J :=
  if pyStartsWith (r.contentType.getD "") "application/json" then
    match r.jsonBody with
    | .ok j => .ok j
    | .error e => .error (400, "Invalid JSON body: " ++ e)
  else .ok (.jObj [])

/-- `_extract_path_suffix`: strip the prefix and leading slashes. -/
def extractPathSuffix (fullPath pre : String) : String :=
  if pyStartsWith fullPath pre then lstripSlash (pyDrop fullPath pre.data.length)
  else ""

/-- Python `endpoint.split("/")`. -/
def pySplitSlash (s : String) : List String :=
  (splitChar '/' s.data).map (fun l => String.mk l)

/-- `endpoint.split("/")[0]` (the list is never empty). -/
def firstSegment (s : String) : String := (pySplitSlash s).headD ""

/-- `json_body.get(k) if json_body else None`: `json_body` may be `None`
(non-body method) or any decoded JSON value; a falsy value yields `None`, a
truthy non-dict raises `AttributeError` (a generic exception). -/
def pyDictGet (jb : Option J) (k : String) : Except String (Option J) :=
  match jb with
  | none => .ok none
  | some (.jObj []) => .ok none
  | some (.jObj fields) => .ok (jObjGet fields k)
  | some .jNull => .ok none
  | some (.jBool false) => .ok none
  | some (.jNum 0) => .ok none
  | some (.jStr "") => .ok none
  | some (.jArr []) => .ok none
  | some _ => .error "object has no attribute 'get'"

/-- `method in ["POST", "PUT", "PATCH"]`. -/
def isBodyMethod (m : String) : Bool :=
  strEqB m "POST" || strEqB m "PUT" || strEqB m "PATCH"

/-- `e.status_code or 500` (a `None` or `0` status code is falsy). -/
def upstreamStatus (e : TessieAPIError) : Nat :=
  match e.statusCode with
  | some c => if c == 0 then 500 else c
  | none => 500

/-- Result of the body of the multi-API `fetch`'s outer `try`: a normal
return (response, number of `client.close()` calls performed before that
return site, upstream calls made) or an exception propagating out of the
`try` (with the upstream calls made before it was raised). -/
abbrev TryResult := Except (PyErr × List HttpCall) (Resp × Nat × List HttpCall)

/-- Shared tail of every proxied operation: run the call; on success
`close()` then `_json_response(result)`; on `TessieAPIError` `close()` then
`_error_response(e.status_code or 500, e.message)` (the `except
TessieAPIError` block each family repeats verbatim). -/
def finishCall (o : Oracle) (c : HttpCall) : TryResult :=
  match callUpstream o c with
  | .ok j => .ok (jsonResponse 200 j, 1, [c])
  | .error e => .ok (errorResponse (upstreamStatus e) e.message, 1, [c])

/-- The `set_charge_limit` arm of the Tessie chain (lines 171–176):
`percent = json_body.get("percent") if json_body else None`; a missing
`percent` raises `HTTPException(400)`; `int(percent)` is evaluated inside
the call expression, so a non-coercible value raises `ValueError` — a
generic exception, not an `HTTPException`. -/
def tessieSetChargeLimitRoute (endpoint : String) (jsonBody : Option J)
    (o : Oracle) : TryResult :=
  match pyDictGet jsonBody "percent" with
  | .error d => .error (.generic d, [])
  | .ok none => .error (.httpExc 400 "Missing 'percent' parameter", [])
  | .ok (some p) =>
    match pyInt p with
    | .error d => .error (.generic d, [])
    | .ok n => finishCall o (tessieSetChargeLimitCall (firstSegment endpoint) n)

/-- The Tessie family dispatch chain (`src_python/main.py` lines 145–211),
predicates in declared order, first match winning. -/
def tessieRoutes (endpoint method : String) (params : List (String × String))
    (jsonBody : Option J) (o : Oracle) : TryResult :=
  if strEqB endpoint "vehicles" then
    finishCall o (tessieListVehiclesCall
      (strEqB (pyLower ((getQueryParam params "only_active").getD "true")) "true"))
  else if pyEndsWith endpoint "/state" then
    finishCall o (tessieStateCall (firstSegment endpoint))
  else if pyEndsWith endpoint "/battery" then
    finishCall o (tessieBatteryCall (firstSegment endpoint))
  else if pyEndsWith endpoint "/wake" && strEqB method "POST" then
    finishCall o (tessieWakeCall (firstSegment endpoint))
  else if pyContainsSub endpoint "/command/start_charging" && strEqB method "POST" then
    finishCall o (tessieStartChargingCall (firstSegment endpoint))
  else if pyContainsSub endpoint "/command/stop_charging" && strEqB method "POST" then
    finishCall o (tessieStopChargingCall (firstSegment endpoint))
  else if pyContainsSub endpoint "/command/set_charge_limit" && strEqB method "POST" then
    tessieSetChargeLimitRoute endpoint jsonBody o
  else if pyContainsSub endpoint "/command/lock" && strEqB method "POST" then
    finishCall o (tessieLockCall (firstSegment endpoint))
  else if pyContainsSub endpoint "/command/unlock" && strEqB method "POST" then
    finishCall o (tessieUnlockCall (firstSegment endpoint))
  else if pyContainsSub endpoint "/command/flash_lights" && strEqB method "POST" then
    finishCall o (tessieFlashLightsCall (firstSegment endpoint))
  else if pyContainsSub endpoint "/command/honk" && strEqB method "POST" then
    finishCall o (tessieHonkCall (firstSegment endpoint))
  else if pyContainsSub endpoint "/command/start_climate" && strEqB method "POST" then
    finishCall o (tessieStartClimateCall (firstSegment endpoint))
  else if pyContainsSub endpoint "/command/stop_climate" && strEqB method "POST" then
    finishCall o (tessieStopClimateCall (firstSegment endpoint))
  else
    .ok (errorResponse 404 ("Tessie endpoint not found: " ++ endpoint), 1, [])

/-- The Teslemetry family dispatch chain (lines 223–262). -/
def telemetryRoutes (endpoint method : String)
    (params : List (String × String)) (o : Oracle) : TryResult :=
  if strEqB endpoint "ping" then finishCall o telemetryPingCall
  else if strEqB endpoint "test" then finishCall o telemetryTestCall
  else if strEqB endpoint "metadata" then finishCall o telemetryMetadataCall
  else if strEqB endpoint "scopes" then finishCall o telemetryScopesCall
  else if pyContainsSub endpoint "/polling" then
    if (getQueryParam params "enabled").isNone && strEqB method "GET" then
      finishCall o (telemetryPollingCall ((pySplitSlash endpoint).getD 1 "") none)
    else if getQueryParam params "enabled" == some "true" || strEqB method "POST" then
      finishCall o (telemetryPollingCall ((pySplitSlash endpoint).getD 1 "") (some true))
    else if getQueryParam params "enabled" == some "false" || strEqB method "DELETE" then
      finishCall o (telemetryPollingCall ((pySplitSlash endpoint).getD 1 "") (some false))
    else .error (.httpExc 400 "Invalid polling operation", [])
  else if pyContainsSub endpoint "/refresh" && strEqB method "POST" then
    finishCall o (telemetryRefreshCall ((pySplitSlash endpoint).getD 1 ""))
  else
    .ok (errorResponse 404 ("Teslemetry endpoint not found: " ++ endpoint), 1, [])

/-- The Fleet family dispatch chain (lines 275–303). -/
def fleetRoutes (endpoint method : String) (params : List (String × String))
    (jsonBody : Option J) (o : Oracle) : TryResult :=
  if strEqB endpoint "vehicles" then finishCall o fleetListVehiclesCall
  else if pyContainsSub endpoint "/vehicle_data" then
    finishCall o
      (fleetVehicleDataCall (firstSegment endpoint) (getQueryParam params "endpoints"))
  else if pyContainsSub endpoint "/wake_up" && strEqB method "POST" then
    finishCall o (fleetWakeUpCall (firstSegment endpoint))
  else if pyContainsSub endpoint "/command/" && strEqB method "POST" then
    finishCall o (fleetCommandCall ((pySplit endpoint "/command/").headD "")
      ((pySplit endpoint "/command/").getD 1 "") jsonBody)
  else
    .ok (errorResponse 404 ("Fleet endpoint not found: " ++ endpoint), 1, [])

/-- The body of the multi-API `fetch`'s `try` block (lines 106–313).  Every
normal return site performs `await client.close()` exactly once before
returning, recorded in the middle component. -/
def fetchTry (req : MultiRequest) (env : MultiEnv) (o : Oracle) : TryResult :=
  if strEqB req.path "/health" && strEqB (pyUpper req.method) "GET" then
    let hc := checkAll (truthyStr env.tessieToken) (truthyStr env.telemetryToken)
      (truthyStr env.fleetToken) o
    .ok (jsonResponse 200 hc.1, 1, hc.2)
  else if strEqB req.path "/status" && strEqB (pyUpper req.method) "GET" then
    let hc := checkAll (truthyStr env.tessieToken) (truthyStr env.telemetryToken)
      (truthyStr env.fleetToken) o
    let ac := checkAuth (truthyStr env.tessieToken) (truthyStr env.telemetryToken)
      (truthyStr env.fleetToken) o
    .ok (jsonResponse 200 (.jObj
          [("health", hc.1), ("authentication", ac.1),
           ("configuration", .jObj
             [("tessie_configured", .jBool env.tessieToken.isSome),
              ("telemetry_configured", .jBool env.telemetryToken.isSome),
              ("fleet_configured", .jBool env.fleetToken.isSome),
              ("fleet_region", .jStr env.fleetRegion)])]),
      1, hc.2 ++ ac.2)
  else if pyStartsWith req.path "/api/tessie/" then
    if !truthyStr env.tessieToken then
      .ok (errorResponse 503 "Tessie API not configured", 1, [])
    else
      if isBodyMethod (pyUpper req.method) then
        match parseJsonBody req with
        | .error em => .error (.httpExc em.1 em.2, [])
        | .ok jb =>
          tessieRoutes (extractPathSuffix req.path "/api/tessie")
            (pyUpper req.method) req.query (some jb) o
      else
        tessieRoutes (extractPathSuffix req.path "/api/tessie")
          (pyUpper req.method) req.query none o
  else if pyStartsWith req.path "/api/telemetry/" then
    if !truthyStr env.telemetryToken then
      .ok (errorResponse 503 "Teslemetry API not configured", 1, [])
    else
      telemetryRoutes (extractPathSuffix req.path "/api/telemetry")
        (pyUpper req.method) req.query o
  else if pyStartsWith req.path "/api/fleet/" then
    if !truthyStr env.fleetToken then
      .ok (errorResponse 503 "Tesla Fleet API not configured", 1, [])
    else
      if isBodyMethod (pyUpper req.method) then
        match parseJsonBody req with
        | .error em => .error (.httpExc em.1 em.2, [])
        | .ok jb =>
          fleetRoutes (extractPathSuffix req.path "/api/fleet")
            (pyUpper req.method) req.query (some jb) o
      else
        fleetRoutes (extractPathSuffix req.path "/api/fleet")
          (pyUpper req.method) req.query none o
  else
    match env.assets with
    | some r => .ok (r, 1, [])
    | none => .ok (errorResponse 404 "Not Found", 1, [])

/-- Complete result of handling one request: the response, the number of
`client.close()` invocations that happened before it was produced, and the
upstream calls made. -/
structure FetchResult where
  resp : Resp
  closes : Nat
  calls : List HttpCall

/-- The multi-API `fetch` entry point: run the `try` body; `except
HTTPException` closes the pool and returns `_error_response(e.status,
e.message)`; `except Exception` closes the pool and returns
`_error_response(500, f"Internal Server Error: {e}")`. -/
def fetchMulti (req : MultiRequest) (env : MultiEnv) (o : Oracle) : FetchResult :=
  match fetchTry req env o with
  | .ok (r, n, cs) => ⟨r, n, cs⟩
  | .error (.httpExc s m, cs) => ⟨errorResponse s m, 1, cs⟩
  | .error (.generic d, cs) =>
    ⟨errorResponse 500 ("Internal Server Error: " ++ d), 1, cs⟩

/-! ### The gated single-API router (`src/main.py`) -/

/-- An inbound request as seen by the gated worker.  `query` models
`parse_qs` on the URL's query string (each key mapped to its non-empty list
of values); `jsonBody` is `await request.json()`. -/
structure GatedRequest where
  method : String
  path : String
  authorization : Option String
  contentType : Option String
  query : List (String × List String)
  jsonBody : Except String J

/-- The gated worker's configuration bindings. -/
structure GatedEnv where
  jwtSecret : Option String
  tessieApiKey : Option String

/-- The JWT primitive, `jwt.decode(token, secret, algorithms=["HS256"])`,
abstracted to whether verification succeeds. -/
def JwtVerifier : Type := String → String → Bool

/-- The upstream operations invoked by the gated worker's handlers
(`tessie_api.get_state` / `wake` / `start_charging` / `set_charge_limit`
with keyword arguments as at the call sites). -/
inductive GatedCall where
  | getState (vin : String) : GatedCall
  | wake (vin : String) : GatedCall
  | startCharging (vin : String) : GatedCall
  | setChargeLimit (vin : String) (percent : Int) : GatedCall
deriving DecidableEq

/-- The gated upstream boundary: each operation either yields JSON or raises
some exception (aiohttp transport/status errors are plain exceptions here —
the gated worker has no typed upstream error), whose detail is the string. -/
def GatedOracle : Type := GatedCall → Except String J

/-- `_authorize_request`: `none` when authorized, otherwise the
`HTTPException(status, message)` it raises.  The bearer token is the part of
the header after the first space (the header starts with `"Bearer "`, so
that is `authorization[7:]`), stripped. -/
def authorizeRequest (req : GatedRequest) (env : GatedEnv)
    (verify : JwtVerifier) : Option (Nat × String) :=
  match req.authorization with
  | none => some (401, "Missing or invalid Authorization header")
  | some a =>
    if !pyStartsWith a "Bearer " then
      some (401, "Missing or invalid Authorization header")
    else
      let token := pyStrip (pyDrop a 7)
      if token == "" then some (401, "Missing bearer token")
      else
        match env.jwtSecret with
        | none => some (500, "JWT secret is not configured")
        | some secret =>
          if secret == "" then some (500, "JWT secret is not configured")
          else if verify token secret then none
          else some (403, "Invalid token")

/-- `parse_qs` value collapsing in `_parse_request_data` (GET):
`values if len(values) > 1 else values[0]` (`parse_qs` never produces an
empty value list). -/
def collapseValues (vs : List String) : J :=
  match vs with
  | [v] => .jStr v
  | _ => .jArr (vs.map (fun v => .jStr v))

/-- `_parse_request_data`: GET reads the query string; other methods require
`application/json` and a JSON object body; anything else is a 400. -/
def parseRequestData (req : GatedRequest) : Except (Nat × String) (List (String × J)) :=
  if strEqB (pyUpper req.method) "GET" then
    .ok (req.query.map (fun p => (p.1, collapseValues p.2)))
  else if pyStartsWith (req.contentType.getD "") "application/json" then
    match req.jsonBody with
    | .error _ => .error (400, "Invalid JSON body")
    | .ok j =>
      match j with
      | .jObj fields => .ok fields
      | _ => .error (400, "JSON body must be an object")
  else .error (400, "Unsupported content type")

/-- `_extract_vin`: take `params["vin"]`, first element if it is a list,
then require a non-empty string.  An empty list makes `vin[0]` raise
`IndexError` (a generic exception); that input is unreachable from
`parse_qs` but reachable from a JSON body. -/
def extractVin (params : List (String × J)) : Except PyErr String :=
  match jObjGet params "vin" with
  | some (.jArr []) => .error (.generic "list index out of range")
  | some (.jArr (v :: _)) =>
    (match v with
     | .jStr s =>
       if s == "" then .error (.httpExc 400 "Missing required 'vin' parameter")
       else .ok s
     | _ => .error (.httpExc 400 "Missing required 'vin' parameter"))
  | some (.jStr s) =>
    if s == "" then .error (.httpExc 400 "Missing required 'vin' parameter")
    else .ok s
  | some _ => .error (.httpExc 400 "Missing required 'vin' parameter")
  | none => .error (.httpExc 400 "Missing required 'vin' parameter")

/-- The four route handlers, reduced to the upstream operation they request:
each extracts the VIN; `_handle_set_charge_limit` additionally requires a
present, `int`-coercible `percent` before any upstream call
(`HTTPException(400)` otherwise — `int` failures are caught as
`(TypeError, ValueError)`). -/
inductive GatedRoute where
  | status : GatedRoute
  | wake : GatedRoute
  | startCharging : GatedRoute
  | setChargeLimit : GatedRoute
deriving DecidableEq

/-- The fixed route table `{(method, path): handler}`. -/
def routeFor (method path : String) : Option GatedRoute :=
  if strEqB method "GET" && strEqB path "/status" then some .status
  else if strEqB method "POST" && strEqB path "/wake" then some .wake
  else if strEqB method "POST" && strEqB path "/command/start_charging" then
    some .startCharging
  else if strEqB method "POST" && strEqB path "/command/set_charge_limit" then
    some .setChargeLimit
  else none

/-- Parameter processing of the matched handler, producing the upstream
operation to invoke or the exception it raises before any upstream call. -/
def gatedHandler (r : GatedRoute) (params : List (String × J)) :
    Except PyErr GatedCall :=
  match extractVin params with
  | .error e => .error e
  | .ok vin =>
    match r with
    | .status => .ok (.getState vin)
    | .wake => .ok (.wake vin)
    | .startCharging => .ok (.startCharging vin)
    | .setChargeLimit =>
      match jObjGet params "percent" with
      | none => .error (.httpExc 400 "Missing required 'percent' parameter")
      | some .jNull => .error (.httpExc 400 "Missing required 'percent' parameter")
      | some p =>
        match pyInt p with
        | .error _ => .error (.httpExc 400 "'percent' must be an integer")
        | .ok n => .ok (.setChargeLimit vin n)

/-- Outcome of the gated `fetch`: either a `Response` was returned, or an
exception escaped the handler uncaught (`_authorize_request` is awaited
before the `try`/`except` block, so the `HTTPException`s it raises
propagate out of `fetch`). -/
inductive GatedOutcome where
  | response (r : Resp) : GatedOutcome
  | escaped (status : Nat) (msg : String) : GatedOutcome

/-- The gated `fetch` entry point (`src/main.py` lines 122–150): authorize
(outside the `try`), match the route table, require `TESSIE_API_KEY`, then
inside the `try` parse parameters and run the handler; `HTTPException`
becomes `_error_response(exc)`, any other exception becomes
`500 {"error": "Internal Server Error"}`.  Also returns the upstream
operations invoked. -/
def fetchGated (req : GatedRequest) (env : GatedEnv) (verify : JwtVerifier)
    (o : GatedOracle) : GatedOutcome × List GatedCall :=
  match authorizeRequest req env verify with
  | some (s, m) => (.escaped s m, [])
  | none =>
    match routeFor (pyUpper req.method) req.path with
    | none => (.response (errorResponse 404 "Not Found"), [])
    | some route =>
      if !truthyStr env.tessieApiKey then
        (.response (errorResponse 500 "Tessie API key is not configured"), [])
      else
        match parseRequestData req with
        | .error em => (.response (errorResponse em.1 em.2), [])
        | .ok params =>
          match gatedHandler route params with
          | .error (.httpExc s m) => (.response (errorResponse s m), [])
          | .error (.generic _) =>
            (.response (errorResponse 500 "Internal Server Error"), [])
          | .ok call =>
            match o call with
            | .ok j => (.response (jsonResponse 200 j), [call])
            | .error _ =>
              (.response (errorResponse 500 "Internal Server Error"), [call])

/-- The close-accounting invariant of a `try`-body result: every normal
return site performed exactly one `client.close()` before returning (raised
exceptions have not closed yet — the `except` handlers do that). -/
def okCloses : TryResult → Prop
  | .ok (_, n, _) => n = 1
  | .error _ => True

/-! ### Toolbox lemmas about the string primitives -/

theorem strEqB_iff {a b : String} : strEqB a b = true ↔ a = b := by
  constructor
  · intro h
    have hd : a.data = b.data := by simpa [strEqB] using h
    cases a
    cases b
    cases hd
    rfl
  · intro h
    subst h
    simp [strEqB]

theorem strEqB_false_of_ne {a b : String} (h : a ≠ b) : strEqB a b = false := by
  cases hs : strEqB a b
  · rfl
  · exact absurd (strEqB_iff.mp hs) h

theorem hasPrefixB_iff {pat l : List Char} :
    hasPrefixB pat l = true ↔ l.take pat.length = pat := by
  simp [hasPrefixB]

theorem data_append (a b : String) : (a ++ b).data = a.data ++ b.data := rfl

theorem mk_data (s : String) : String.mk s.data = s := rfl

theorem startsWith_take {s pre : String} (h : pyStartsWith s pre = true)
    {n : Nat} (hn : n ≤ pre.data.length) :
    s.data.take n = pre.data.take n := by
  have h' : s.data.take pre.data.length = pre.data := hasPrefixB_iff.mp h
  calc s.data.take n = (s.data.take pre.data.length).take n := by
        rw [List.take_take, Nat.min_eq_left hn]
    _ = pre.data.take n := by rw [h']

theorem startsWith_length_le {s pre : String} (h : pyStartsWith s pre = true) :
    pre.data.length ≤ s.data.length := by
  have h' : s.data.take pre.data.length = pre.data := hasPrefixB_iff.mp h
  have := congrArg List.length h'
  rw [List.length_take] at this
  omega

theorem strEqB_false_of_startsWith_longer {s pre t : String}
    (h : pyStartsWith s pre = true) (hlt : t.data.length < pre.data.length) :
    strEqB s t = false := by
  cases hs : strEqB s t
  · rfl
  · have hst : s = t := strEqB_iff.mp hs
    have hle := startsWith_length_le h
    rw [hst] at hle
    omega

theorem pyStartsWith_false_of_mismatch {s p1 p2 : String}
    (h1 : pyStartsWith s p1 = true) (n : Nat)
    (hn1 : n ≤ p1.data.length) (hn2 : n ≤ p2.data.length)
    (hne : p1.data.take n ≠ p2.data.take n) : pyStartsWith s p2 = false := by
  cases hs : pyStartsWith s p2
  · rfl
  · exact absurd ((startsWith_take h1 hn1).symm.trans (startsWith_take hs hn2))
      hne

theorem hasPrefixB_cons_ne {p a : Char} {ps l : List Char} (h : a ≠ p) :
    hasPrefixB (p :: ps) (a :: l) = false := by
  simp [hasPrefixB, h]

theorem containsSub_false_of_not_mem {p : Char} {ps l : List Char}
    (h : p ∉ l) : containsSub (p :: ps) l = false := by
  induction l with
  | nil => simp [containsSub, hasPrefixB]
  | cons a rest ih =>
    have ha : a ≠ p := fun he => h (he ▸ List.mem_cons_self a rest)
    have hr : p ∉ rest := fun hm => h (List.mem_cons_of_mem a hm)
    simp [containsSub, hasPrefixB_cons_ne ha, ih hr]

theorem containsSub_append_of_not_mem {p : Char} {ps l r : List Char}
    (h : p ∉ l) : containsSub (p :: ps) (l ++ r) = containsSub (p :: ps) r := by
  induction l with
  | nil => rfl
  | cons a rest ih =>
    have ha : a ≠ p := fun he => h (he ▸ List.mem_cons_self a rest)
    have hr : p ∉ rest := fun hm => h (List.mem_cons_of_mem a hm)
    simp [containsSub, hasPrefixB_cons_ne ha, ih hr]

theorem hasSuffixB_append {pat l : List Char} :
    hasSuffixB pat (l ++ pat) = true := by
  simp [hasSuffixB]

theorem hasSuffixB_false_of_not_mem {c : Char} {pat l : List Char}
    (hc : c ∈ pat) (h : c ∉ l) : hasSuffixB pat l = false := by
  cases hs : hasSuffixB pat l
  · rfl
  · exfalso
    have h' : l.drop (l.length - pat.length) = pat := by
      simpa [hasSuffixB] using hs
    exact h (List.mem_of_mem_drop (h' ▸ hc))

theorem splitChar_of_not_mem {c : Char} {l : List Char} (h : c ∉ l) :
    splitChar c l = [l] := by
  induction l with
  | nil => rfl
  | cons a rest ih =>
    have ha : a ≠ c := fun he => h (he ▸ List.mem_cons_self a rest)
    have hr : c ∉ rest := fun hm => h (List.mem_cons_of_mem a hm)
    simp [splitChar, ha, ih hr]

theorem splitChar_append {c : Char} {l r : List Char} (h : c ∉ l) :
    splitChar c (l ++ c :: r) = l :: splitChar c r := by
  induction l with
  | nil => simp [splitChar]
  | cons a rest ih =>
    have ha : a ≠ c := fun he => h (he ▸ List.mem_cons_self a rest)
    have hr : c ∉ rest := fun hm => h (List.mem_cons_of_mem a hm)
    simp [splitChar, ha, ih hr]

theorem list_beq_false_of_mem_not_mem {c : Char} {l m : List Char}
    (hl : c ∈ l) (hm : c ∉ m) : (l == m) = false := by
  cases hs : l == m
  · rfl
  · exact absurd (beq_iff_eq.mp hs ▸ hl) hm

theorem dropWhile_cons_of_ne (c : Char) (l : List Char) (p : Char → Bool)
    (h : p c = false) : (c :: l).dropWhile p = c :: l := by
  simp [List.dropWhile, h]

theorem extract_tessie (rest : List Char) :
    extractPathSuffix (String.mk ("/api/tessie".data ++ '/' :: rest)) "/api/tessie"
      = String.mk (rest.dropWhile (fun c => c == '/')) := by
  have hpre : pyStartsWith (String.mk ("/api/tessie".data ++ '/' :: rest))
      "/api/tessie" = true := by
    apply hasPrefixB_iff.mpr
    exact List.take_left "/api/tessie".data ('/' :: rest)
  unfold extractPathSuffix
  rw [hpre]
  simp only [if_true]
  unfold pyDrop lstripSlash
  rw [show (String.mk ("/api/tessie".data ++ '/' :: rest)).data
      = "/api/tessie".data ++ '/' :: rest from rfl]
  rw [List.drop_left]
  simp [List.dropWhile_cons]


theorem finishCall_okCloses (o : Oracle) (c : HttpCall) :
    okCloses (finishCall o c) := by
  unfold finishCall
  split <;> trivial

theorem okCloses_ite {c : Prop} [Decidable c] {a b : TryResult}
    (ha : okCloses a) (hb : okCloses b) : okCloses (if c then a else b) := by
  by_cases hc : c
  · rwa [if_pos hc]
  · rwa [if_neg hc]

theorem tessieSetChargeLimitRoute_okCloses (endpoint : String)
    (jsonBody : Option J) (o : Oracle) :
    okCloses (tessieSetChargeLimitRoute endpoint jsonBody o) := by
  unfold tessieSetChargeLimitRoute
  split
  · trivial
  · trivial
  · split
    · trivial
    · exact finishCall_okCloses _ _

theorem tessieRoutes_okCloses (endpoint method : String)
    (params : List (String × String)) (jsonBody : Option J) (o : Oracle) :
    okCloses (tessieRoutes endpoint method params jsonBody o) := by
  unfold tessieRoutes
  repeat
    first
      | exact finishCall_okCloses _ _
      | refine okCloses_ite (finishCall_okCloses _ _) ?_
  refine okCloses_ite (tessieSetChargeLimitRoute_okCloses _ _ _) ?_
  repeat
    first
      | trivial
      | refine okCloses_ite (finishCall_okCloses _ _) ?_

theorem telemetryRoutes_okCloses (endpoint method : String)
    (params : List (String × String)) (o : Oracle) :
    okCloses (telemetryRoutes endpoint method params o) := by
  unfold telemetryRoutes
  repeat
    first
      | exact finishCall_okCloses _ _
      | refine okCloses_ite (finishCall_okCloses _ _) ?_
  refine okCloses_ite ?_ ?_
  · repeat
      first
        | trivial
        | refine okCloses_ite (finishCall_okCloses _ _) ?_
  · repeat
      first
        | trivial
        | refine okCloses_ite (finishCall_okCloses _ _) ?_

theorem fleetRoutes_okCloses (endpoint method : String)
    (params : List (String × String)) (jsonBody : Option J) (o : Oracle) :
    okCloses (fleetRoutes endpoint method params jsonBody o) := by
  unfold fleetRoutes
  repeat
    first
      | exact finishCall_okCloses _ _
      | trivial
      | refine okCloses_ite (finishCall_okCloses _ _) ?_

theorem fetchTry_okCloses (req : MultiRequest) (env : MultiEnv) (o : Oracle) :
    okCloses (fetchTry req env o) := by
  unfold fetchTry
  refine okCloses_ite (by trivial) ?_
  refine okCloses_ite (by trivial) ?_
  refine okCloses_ite (okCloses_ite (by trivial) ?_) ?_
  · refine okCloses_ite ?_ (tessieRoutes_okCloses _ _ _ _ _)
    cases parseJsonBody req with
    | error em => trivial
    | ok jb => exact tessieRoutes_okCloses _ _ _ _ _
  refine okCloses_ite (okCloses_ite (by trivial) (telemetryRoutes_okCloses _ _ _ _)) ?_
  refine okCloses_ite (okCloses_ite (by trivial) ?_) ?_
  · refine okCloses_ite ?_ (fleetRoutes_okCloses _ _ _ _ _)
    cases parseJsonBody req with
    | error em => trivial
    | ok jb => exact fleetRoutes_okCloses _ _ _ _ _
  cases env.assets with
  | some r => trivial
  | none => trivial

/-- C9: on every return path of the multi-API fetch handler — health/status
endpoints, each 503 branch, each per-family success and 404 branch, the
typed upstream-error branches, the static-asset fallthrough, the
HTTPException branch, and the unexpected-exception branch — the per-request
connection pool is closed (`client.close()` awaited) exactly once before
the response is returned; the handler never produces a response while the
pool it constructed remains open. -/
theorem C9_pool_closed_on_every_path (req : MultiRequest) (env : MultiEnv)
    (o : Oracle) : (fetchMulti req env o).closes = 1 := by
  have hok := fetchTry_okCloses req env o
  unfold fetchMulti
  cases hft : fetchTry req env o with
  | ok t =>
    rw [hft] at hok
    obtain ⟨r, n, cs⟩ := t
    simpa [okCloses] using hok
  | error e =>
    obtain ⟨pe, cs⟩ := e
    cases pe <;> rfl

/-- C8: `check_all` health aggregation over the three per-family statuses:
at least one configured family UNHEALTHY makes the overall status UNHEALTHY;
otherwise at least one DEGRADED makes it DEGRADED; every configured family
HEALTHY makes it HEALTHY; and an UNKNOWN (unconfigured) family never changes
the aggregate computed from the remaining families. -/
theorem C8_check_all_aggregation (s1 s2 s3 : HealthStatus) :
    ((s1 = .unhealthy ∨ s2 = .unhealthy ∨ s3 = .unhealthy) →
      overallStatus [s1, s2, s3] = .unhealthy)
    ∧ (¬(s1 = .unhealthy ∨ s2 = .unhealthy ∨ s3 = .unhealthy) →
        (s1 = .degraded ∨ s2 = .degraded ∨ s3 = .degraded) →
        overallStatus [s1, s2, s3] = .degraded)
    ∧ (((s1 ≠ .unknown → s1 = .healthy) ∧ (s2 ≠ .unknown → s2 = .healthy)
        ∧ (s3 ≠ .unknown → s3 = .healthy)) →
        overallStatus [s1, s2, s3] = .healthy)
    ∧ overallStatus [s1, s2, HealthStatus.unknown] = overallStatus [s1, s2]
    ∧ overallStatus [s1, HealthStatus.unknown, s3] = overallStatus [s1, s3]
    ∧ overallStatus [HealthStatus.unknown, s2, s3] = overallStatus [s2, s3] := by
  cases s1 <;> cases s2 <;> cases s3 <;> decide

theorem C8_check_all_aggregation_witness :
    overallStatus [.unhealthy, .healthy, .healthy] = .unhealthy
    ∧ overallStatus [.degraded, .healthy, .unknown] = .degraded
    ∧ overallStatus [.healthy, .unknown, .healthy] = .healthy :=
  ⟨(C8_check_all_aggregation .unhealthy .healthy .healthy).1 (Or.inl rfl),
   (C8_check_all_aggregation .degraded .healthy .unknown).2.1 (by decide)
     (Or.inl rfl),
   (C8_check_all_aggregation .healthy .unknown .healthy).2.2.1 (by decide)⟩

/-- C10: when no API family has a configured token (all three per-family
statuses UNKNOWN), `check_all` reports the overall status `"healthy"` — the
all-HEALTHY test is vacuously true over the empty list of non-UNKNOWN
statuses — and the UNKNOWN overall branch is unreachable from any
combination of three per-family statuses. -/
theorem C10_all_unknown_overall_healthy :
    overallStatus [HealthStatus.unknown, HealthStatus.unknown, HealthStatus.unknown]
      = HealthStatus.healthy
    ∧ (∀ s1 s2 s3 : HealthStatus,
        overallStatus [s1, s2, s3] = .healthy
        ∨ overallStatus [s1, s2, s3] = .unhealthy
        ∨ overallStatus [s1, s2, s3] = .degraded)
    ∧ (∀ o : Oracle,
        fetchMulti ⟨"GET", "/health", [], none, .ok .jNull⟩
          ⟨none, none, none, "na", none⟩ o
        = ⟨jsonResponse 200 (.jObj
            [("status", .jStr "healthy"),
             ("apis", .jObj
               [("tessie", .jObj [("status", .jStr "unknown")]),
                ("telemetry", .jObj [("status", .jStr "unknown")]),
                ("fleet", .jObj [("status", .jStr "unknown")])])]),
           1, []⟩) := by
  refine ⟨by decide, ?_, ?_⟩
  · intro s1 s2 s3
    cases s1 <;> cases s2 <;> cases s3 <;> decide
  · intro o
    rfl

/-- C2: in the gated variant, a missing, malformed (no `Bearer ` prefix) or
empty-after-trimming bearer credential produces status 401 with zero
upstream calls, and a well-formed token failing HMAC verification produces
status 403 — but in each case `fetch` does not return a JSON response: the
`HTTPException` raised by `_authorize_request` (awaited before the
`try`/`except` block) escapes the handler uncaught. -/
theorem C2_auth_gate_escapes_before_upstream :
    fetchGated ⟨"GET", "/status", none, none, [], .ok .jNull⟩
      ⟨some "jwt-secret", some "tessie-key"⟩ (fun _ _ => true)
      (fun _ => .ok .jNull)
    = (.escaped 401 "Missing or invalid Authorization header", [])
    ∧ fetchGated ⟨"GET", "/status", some "Token abc", none, [], .ok .jNull⟩
      ⟨some "jwt-secret", some "tessie-key"⟩ (fun _ _ => true)
      (fun _ => .ok .jNull)
    = (.escaped 401 "Missing or invalid Authorization header", [])
    ∧ fetchGated ⟨"GET", "/status", some "Bearer   ", none, [], .ok .jNull⟩
      ⟨some "jwt-secret", some "tessie-key"⟩ (fun _ _ => true)
      (fun _ => .ok .jNull)
    = (.escaped 401 "Missing bearer token", [])
    ∧ fetchGated ⟨"GET", "/status", some "Bearer wrong.sig.token", none, [],
        .ok .jNull⟩
      ⟨some "jwt-secret", some "tessie-key"⟩ (fun _ _ => false)
      (fun _ => .ok .jNull)
    = (.escaped 403 "Invalid token", []) :=
  ⟨rfl, rfl, rfl, rfl⟩

/-- C3: the claim that no exception ever escapes either fetch handler fails
in the gated variant: an auth-gate `HTTPException(401)` escapes `fetch`
uncaught (first conjunct).  The gated catch-all does return exactly
`500 {"error": "Internal Server Error"}` for a generic exception raised
inside its `try` (second conjunct), while the multi-API catch-all returns
`500 {"error": "Internal Server Error: {detail}"}` — the detail appended —
shown here for an `AttributeError` raised by `.get` on a non-dict JSON body
(third conjunct). -/
theorem C3_catch_all_and_auth_escape :
    fetchGated ⟨"POST", "/command/start_charging", none, some "application/json",
        [], .ok (.jObj [("vin", .jStr "VIN123")])⟩
      ⟨some "jwt-secret", some "tessie-key"⟩ (fun _ _ => true)
      (fun _ => .ok .jNull)
    = (.escaped 401 "Missing or invalid Authorization header", [])
    ∧ fetchGated ⟨"GET", "/status", some "Bearer tok", none,
        [("vin", ["VIN123"])], .ok .jNull⟩
      ⟨some "jwt-secret", some "tessie-key"⟩ (fun _ _ => true)
      (fun _ => .error "connection reset")
    = (.response (errorResponse 500 "Internal Server Error"),
       [.getState "VIN123"])
    ∧ fetchMulti ⟨"POST", "/api/tessie/VIN123/command/set_charge_limit", [],
        some "application/json", .ok (.jStr "oops")⟩
      ⟨some "tessie-key", none, none, "na", none⟩ (fun _ => .success .jNull)
    = ⟨errorResponse 500 "Internal Server Error: object has no attribute 'get'",
       1, []⟩ :=
  ⟨rfl, rfl, rfl⟩

/-- C5: `set_charge_limit` parameter validation.  In the multi-API variant a
missing `percent` yields 400 with zero upstream calls, but a non-coercible
`percent` (`"abc"`) raises `ValueError` out of `int(percent)` and lands in
the top-level catch-all as a 500 — not the claimed 400 (still zero upstream
calls); `percent=80` forwards exactly `{"percent": 80}` as the JSON body of
`POST VIN123/command/set_charge_limit`.  In the gated variant both the
missing and the non-coercible cases are 400 local errors with zero upstream
calls, and `percent=80` invokes the upstream operation with integer 80. -/
theorem C5_set_charge_limit_validation :
    fetchMulti ⟨"POST", "/api/tessie/VIN123/command/set_charge_limit", [],
        some "application/json", .ok (.jObj [("percent", .jStr "abc")])⟩
      ⟨some "tessie-key", none, none, "na", none⟩ (fun _ => .success .jNull)
    = ⟨errorResponse 500
        "Internal Server Error: invalid literal for int() with base 10: 'abc'",
       1, []⟩
    ∧ fetchMulti ⟨"POST", "/api/tessie/VIN123/command/set_charge_limit", [],
        some "application/json", .ok (.jObj [("vin", .jStr "VIN123")])⟩
      ⟨some "tessie-key", none, none, "na", none⟩ (fun _ => .success .jNull)
    = ⟨errorResponse 400 "Missing 'percent' parameter", 1, []⟩
    ∧ fetchMulti ⟨"POST", "/api/tessie/VIN123/command/set_charge_limit", [],
        some "application/json", .ok (.jObj [("percent", .jNum 80)])⟩
      ⟨some "tessie-key", none, none, "na", none⟩ (fun _ => .success .jNull)
    = ⟨jsonResponse 200 .jNull, 1, [tessieSetChargeLimitCall "VIN123" 80]⟩
    ∧ tessieSetChargeLimitCall "VIN123" 80
    = ⟨"tessie", "POST", "VIN123/command/set_charge_limit", none,
       some (.jObj [("percent", .jNum 80)])⟩
    ∧ fetchGated ⟨"POST", "/command/set_charge_limit", some "Bearer tok",
        some "application/json", [], .ok (.jObj [("vin", .jStr "VIN123")])⟩
      ⟨some "jwt-secret", some "tessie-key"⟩ (fun _ _ => true)
      (fun _ => .ok .jNull)
    = (.response (errorResponse 400 "Missing required 'percent' parameter"), [])
    ∧ fetchGated ⟨"POST", "/command/set_charge_limit", some "Bearer tok",
        some "application/json", [],
        .ok (.jObj [("vin", .jStr "VIN123"), ("percent", .jStr "abc")])⟩
      ⟨some "jwt-secret", some "tessie-key"⟩ (fun _ _ => true)
      (fun _ => .ok .jNull)
    = (.response (errorResponse 400 "'percent' must be an integer"), [])
    ∧ fetchGated ⟨"POST", "/command/set_charge_limit", some "Bearer tok",
        some "application/json", [],
        .ok (.jObj [("vin", .jStr "VIN123"), ("percent", .jNum 80)])⟩
      ⟨some "jwt-secret", some "tessie-key"⟩ (fun _ _ => true)
      (fun _ => .ok .jNull)
    = (.response (jsonResponse 200 .jNull), [.setChargeLimit "VIN123" 80]) :=
  ⟨rfl, rfl, rfl, rfl, rfl, rfl, rfl⟩

/-- C7: refutation at a concrete input of the claim that both request
parsers reject a non-JSON content type with 400: on a `POST` with
`Content-Type: text/plain`, the multi-API `_parse_json_body` silently
substitutes the empty parameter mapping `{}` instead of failing. -/
theorem C7_counterexample_empty_mapping :
    parseJsonBody ⟨"POST", "/api/tessie/VIN123/command/honk", [],
      some "text/plain", .ok (.jObj [("a", .jNum 1)])⟩ = .ok (.jObj []) := rfl

/-- C7 (amended): for every body-bearing (non-GET) request whose
content type does not start with `application/json`, the gated variant's
`_parse_request_data` fails with `400 "Unsupported content type"`, while the
multi-API variant's `_parse_json_body` silently returns the empty mapping
`{}` and raises nothing. -/
theorem C7_unsupported_content_type (r : GatedRequest) (m : MultiRequest)
    (hr : strEqB (pyUpper r.method) "GET" = false)
    (hct : pyStartsWith (r.contentType.getD "") "application/json" = false)
    (hmct : pyStartsWith (m.contentType.getD "") "application/json" = false) :
    parseRequestData r = .error (400, "Unsupported content type")
    ∧ parseJsonBody m = .ok (.jObj []) := by
  constructor
  · unfold parseRequestData
    simp [hr, hct]
  · unfold parseJsonBody
    simp [hmct]

theorem C7_unsupported_content_type_witness :
    strEqB (pyUpper "POST") "GET" = false
    ∧ pyStartsWith ((some "text/plain" : Option String).getD "")
        "application/json" = false
    ∧ (parseRequestData ⟨"POST", "/wake", some "Bearer tok", some "text/plain",
        [], .ok (.jObj [("vin", .jStr "VIN123")])⟩
      = .error (400, "Unsupported content type")
      ∧ parseJsonBody ⟨"PUT", "/api/fleet/VIN123/command/charge_start", [],
          some "text/plain", .ok (.jObj [("a", .jNum 1)])⟩
      = .ok (.jObj [])) :=
  ⟨rfl, rfl, C7_unsupported_content_type _ _ rfl rfl rfl⟩

/-- C1: every upstream non-2xx response makes the client raise
`TessieAPIError` with message exactly `HTTP {code}: {body}` and
`status_code` the upstream code, and the gateway answers with that same
status and body `{"error": <message>}`; every transport-level failure makes
it raise `status_code = None` with message `Request failed: {detail}`, and
the gateway answers 500.  Stated generally at the client boundary
(`baseRequest`) and end-to-end through the multi-API `fetch` on the
vehicle-state route. -/
theorem C1_upstream_error_translation (code : Nat) (text detail : String)
    (o1 o2 : Oracle) (hcode : code ≠ 0)
    (h1 : o1 (tessieStateCall "VIN123") = .httpError code text)
    (h2 : o2 (tessieStateCall "VIN123") = .transportError detail) :
    (∀ (c : Nat) (t : String), baseRequest (.httpError c t)
      = .error ⟨"HTTP " ++ toString c ++ ": " ++ t, some c⟩)
    ∧ (∀ d : String, baseRequest (.transportError d)
      = .error ⟨"Request failed: " ++ d, none⟩)
    ∧ fetchMulti ⟨"GET", "/api/tessie/VIN123/state", [], none, .ok .jNull⟩
        ⟨some "tessie-key", none, none, "na", none⟩ o1
      = ⟨errorResponse code ("HTTP " ++ toString code ++ ": " ++ text), 1,
         [tessieStateCall "VIN123"]⟩
    ∧ fetchMulti ⟨"GET", "/api/tessie/VIN123/state", [], none, .ok .jNull⟩
        ⟨some "tessie-key", none, none, "na", none⟩ o2
      = ⟨errorResponse 500 ("Request failed: " ++ detail), 1,
         [tessieStateCall "VIN123"]⟩ := by
  refine ⟨fun c t => rfl, fun d => rfl, ?_, ?_⟩
  · have hred : fetchTry ⟨"GET", "/api/tessie/VIN123/state", [], none, .ok .jNull⟩
        ⟨some "tessie-key", none, none, "na", none⟩ o1
        = finishCall o1 (tessieStateCall "VIN123") := rfl
    have hc : callUpstream o1 (tessieStateCall "VIN123")
        = .error ⟨"HTTP " ++ toString code ++ ": " ++ text, some code⟩ := by
      unfold callUpstream
      rw [h1]
      rfl
    unfold fetchMulti
    rw [hred]
    unfold finishCall
    rw [hc]
    simp [upstreamStatus, hcode]
  · have hred : fetchTry ⟨"GET", "/api/tessie/VIN123/state", [], none, .ok .jNull⟩
        ⟨some "tessie-key", none, none, "na", none⟩ o2
        = finishCall o2 (tessieStateCall "VIN123") := rfl
    have hc : callUpstream o2 (tessieStateCall "VIN123")
        = .error ⟨"Request failed: " ++ detail, none⟩ := by
      unfold callUpstream
      rw [h2]
      rfl
    unfold fetchMulti
    rw [hred]
    unfold finishCall
    rw [hc]
    simp [upstreamStatus]

theorem C1_upstream_error_translation_witness :
    (401 ≠ 0)
    ∧ ((fun _ => UpstreamOutcome.httpError 401 "Unauthorized") :
        Oracle) (tessieStateCall "VIN123") = .httpError 401 "Unauthorized"
    ∧ fetchMulti ⟨"GET", "/api/tessie/VIN123/state", [], none, .ok .jNull⟩
        ⟨some "tessie-key", none, none, "na", none⟩
        (fun _ => UpstreamOutcome.httpError 401 "Unauthorized")
      = ⟨errorResponse 401 "HTTP 401: Unauthorized", 1,
         [tessieStateCall "VIN123"]⟩
    ∧ fetchMulti ⟨"GET", "/api/tessie/VIN123/state", [], none, .ok .jNull⟩
        ⟨some "tessie-key", none, none, "na", none⟩
        (fun _ => UpstreamOutcome.transportError "connection refused")
      = ⟨errorResponse 500 "Request failed: connection refused", 1,
         [tessieStateCall "VIN123"]⟩ :=
  ⟨by decide, rfl,
   (C1_upstream_error_translation 401 "Unauthorized" "connection refused"
      (fun _ => UpstreamOutcome.httpError 401 "Unauthorized")
      (fun _ => UpstreamOutcome.transportError "connection refused")
      (by decide) rfl rfl).2.2.1,
   (C1_upstream_error_translation 401 "Unauthorized" "connection refused"
      (fun _ => UpstreamOutcome.httpError 401 "Unauthorized")
      (fun _ => UpstreamOutcome.transportError "connection refused")
      (by decide) rfl rfl).2.2.2⟩

theorem fetchTry_tessie_reduce (req : MultiRequest) (env : MultiEnv) (o : Oracle)
    (hH : strEqB req.path "/health" = false)
    (hS : strEqB req.path "/status" = false)
    (hB : pyStartsWith req.path "/api/tessie/" = true) :
    fetchTry req env o =
      if !truthyStr env.tessieToken then
        .ok (errorResponse 503 "Tessie API not configured", 1, [])
      else
        if isBodyMethod (pyUpper req.method) then
          match parseJsonBody req with
          | .error em => .error (.httpExc em.1 em.2, [])
          | .ok jb =>
            tessieRoutes (extractPathSuffix req.path "/api/tessie")
              (pyUpper req.method) req.query (some jb) o
        else
          tessieRoutes (extractPathSuffix req.path "/api/tessie")
            (pyUpper req.method) req.query none o := by
  unfold fetchTry
  rw [hH, hS, hB]
  simp

theorem fetchTry_telemetry_reduce (req : MultiRequest) (env : MultiEnv)
    (o : Oracle)
    (hH : strEqB req.path "/health" = false)
    (hS : strEqB req.path "/status" = false)
    (hT : pyStartsWith req.path "/api/tessie/" = false)
    (hB : pyStartsWith req.path "/api/telemetry/" = true) :
    fetchTry req env o =
      if !truthyStr env.telemetryToken then
        .ok (errorResponse 503 "Teslemetry API not configured", 1, [])
      else
        telemetryRoutes (extractPathSuffix req.path "/api/telemetry")
          (pyUpper req.method) req.query o := by
  unfold fetchTry
  rw [hH, hS, hT, hB]
  simp

theorem fetchTry_fleet_reduce (req : MultiRequest) (env : MultiEnv) (o : Oracle)
    (hH : strEqB req.path "/health" = false)
    (hS : strEqB req.path "/status" = false)
    (hT : pyStartsWith req.path "/api/tessie/" = false)
    (hM : pyStartsWith req.path "/api/telemetry/" = false)
    (hB : pyStartsWith req.path "/api/fleet/" = true) :
    fetchTry req env o =
      if !truthyStr env.fleetToken then
        .ok (errorResponse 503 "Tesla Fleet API not configured", 1, [])
      else
        if isBodyMethod (pyUpper req.method) then
          match parseJsonBody req with
          | .error em => .error (.httpExc em.1 em.2, [])
          | .ok jb =>
            fleetRoutes (extractPathSuffix req.path "/api/fleet")
              (pyUpper req.method) req.query (some jb) o
        else
          fleetRoutes (extractPathSuffix req.path "/api/fleet")
            (pyUpper req.method) req.query none o := by
  unfold fetchTry
  rw [hH, hS, hT, hM, hB]
  simp

/-- C6: any request whose path lies under the URL prefix of an API family
with no configured credential (a missing or empty token) is answered
`503 Service Unavailable` with that family's descriptive message, with zero
upstream calls — for each of the three families. -/
theorem C6_unconfigured_family_503 (req : MultiRequest) (env : MultiEnv)
    (o : Oracle) :
    (pyStartsWith req.path "/api/tessie/" = true →
      truthyStr env.tessieToken = false →
      fetchMulti req env o
        = ⟨errorResponse 503 "Tessie API not configured", 1, []⟩)
    ∧ (pyStartsWith req.path "/api/telemetry/" = true →
      truthyStr env.telemetryToken = false →
      fetchMulti req env o
        = ⟨errorResponse 503 "Teslemetry API not configured", 1, []⟩)
    ∧ (pyStartsWith req.path "/api/fleet/" = true →
      truthyStr env.fleetToken = false →
      fetchMulti req env o
        = ⟨errorResponse 503 "Tesla Fleet API not configured", 1, []⟩) := by
  refine ⟨?_, ?_, ?_⟩
  · intro hp ht
    have hH : strEqB req.path "/health" = false :=
      strEqB_false_of_startsWith_longer hp (by decide)
    have hS : strEqB req.path "/status" = false :=
      strEqB_false_of_startsWith_longer hp (by decide)
    unfold fetchMulti
    rw [fetchTry_tessie_reduce req env o hH hS hp, ht]
    rfl
  · intro hp ht
    have hH : strEqB req.path "/health" = false :=
      strEqB_false_of_startsWith_longer hp (by decide)
    have hS : strEqB req.path "/status" = false :=
      strEqB_false_of_startsWith_longer hp (by decide)
    have hT : pyStartsWith req.path "/api/tessie/" = false :=
      pyStartsWith_false_of_mismatch hp 8 (by decide) (by decide) (by decide)
    unfold fetchMulti
    rw [fetchTry_telemetry_reduce req env o hH hS hT hp, ht]
    rfl
  · intro hp ht
    have hH : strEqB req.path "/health" = false :=
      strEqB_false_of_startsWith_longer hp (by decide)
    have hS : strEqB req.path "/status" = false :=
      strEqB_false_of_startsWith_longer hp (by decide)
    have hT : pyStartsWith req.path "/api/tessie/" = false :=
      pyStartsWith_false_of_mismatch hp 6 (by decide) (by decide) (by decide)
    have hM : pyStartsWith req.path "/api/telemetry/" = false :=
      pyStartsWith_false_of_mismatch hp 6 (by decide) (by decide) (by decide)
    unfold fetchMulti
    rw [fetchTry_fleet_reduce req env o hH hS hT hM hp, ht]
    rfl

theorem C6_unconfigured_family_503_witness :
    pyStartsWith "/api/tessie/vehicles" "/api/tessie/" = true
    ∧ truthyStr (none : Option String) = false
    ∧ fetchMulti ⟨"GET", "/api/tessie/vehicles", [], none, .ok .jNull⟩
        ⟨none, some "telemetry-key", some "fleet-key", "na", none⟩
        (fun _ => .success .jNull)
      = ⟨errorResponse 503 "Tessie API not configured", 1, []⟩
    ∧ fetchMulti ⟨"GET", "/api/telemetry/ping", [], none, .ok .jNull⟩
        ⟨some "tessie-key", none, some "fleet-key", "na", none⟩
        (fun _ => .success .jNull)
      = ⟨errorResponse 503 "Teslemetry API not configured", 1, []⟩
    ∧ fetchMulti ⟨"GET", "/api/fleet/vehicles", [], none, .ok .jNull⟩
        ⟨some "tessie-key", some "telemetry-key", none, "na", none⟩
        (fun _ => .success .jNull)
      = ⟨errorResponse 503 "Tesla Fleet API not configured", 1, []⟩ :=
  ⟨rfl, rfl,
   (C6_unconfigured_family_503 ⟨"GET", "/api/tessie/vehicles", [], none,
      .ok .jNull⟩ ⟨none, some "telemetry-key", some "fleet-key", "na", none⟩
      (fun _ => .success .jNull)).1 rfl rfl,
   (C6_unconfigured_family_503 ⟨"GET", "/api/telemetry/ping", [], none,
      .ok .jNull⟩ ⟨some "tessie-key", none, some "fleet-key", "na", none⟩
      (fun _ => .success .jNull)).2.1 rfl rfl,
   (C6_unconfigured_family_503 ⟨"GET", "/api/fleet/vehicles", [], none,
      .ok .jNull⟩ ⟨some "tessie-key", some "telemetry-key", none, "na", none⟩
      (fun _ => .success .jNull)).2.2 rfl rfl⟩

/-- C4: within the Tessie family the operation predicates run in declared
order with first match winning.  For every GET to `/api/tessie/<vin>/state`
(VIN an arbitrary non-empty slash-free segment) the dispatcher extracts the
VIN as the first path segment after the family prefix, invokes the
vehicle-state client operation exactly once, and returns the upstream JSON
unmodified with status 200.  A descriptor consisting only of a bare VIN
satisfies no predicate and falls through to the 404 outcome, and the exact
literal `vehicles` descriptor dispatches to the list operation. -/
theorem C4_state_route_dispatch (vin : String) (j : J) (o : Oracle)
    (hne : vin.data ≠ []) (hns : '/' ∉ vin.data) (hnv : vin ≠ "vehicles")
    (hst : o (tessieStateCall vin) = .success j) :
    fetchMulti ⟨"GET", "/api/tessie/" ++ vin ++ "/state", [], none, .ok .jNull⟩
      ⟨some "tessie-key", none, none, "na", none⟩ o
    = ⟨jsonResponse 200 j, 1, [tessieStateCall vin]⟩
    ∧ fetchMulti ⟨"GET", "/api/tessie/" ++ vin, [], none, .ok .jNull⟩
      ⟨some "tessie-key", none, none, "na", none⟩ o
    = ⟨errorResponse 404 ("Tessie endpoint not found: " ++ vin), 1, []⟩
    ∧ (fetchMulti ⟨"GET", "/api/tessie/vehicles", [], none, .ok .jNull⟩
      ⟨some "tessie-key", none, none, "na", none⟩ o).calls
    = [tessieListVehiclesCall true] := by
  obtain ⟨c0, vt, hvd⟩ : ∃ c0 vt, vin.data = c0 :: vt := by
    cases h : vin.data with
    | nil => exact absurd h hne
    | cons a l => exact ⟨a, l, rfl⟩
  have hc0 : (c0 == '/') = false := by
    have h1 : c0 ≠ '/' := by
      intro he
      apply hns
      rw [hvd, he]
      exact List.mem_cons_self _ _
    simpa using h1
  refine ⟨?_, ?_, ?_⟩
  · have hB : pyStartsWith ("/api/tessie/" ++ vin ++ "/state") "/api/tessie/"
        = true := by
      have hd : ("/api/tessie/" ++ vin ++ "/state").data
          = "/api/tessie/".data ++ (vin.data ++ "/state".data) :=
        List.append_assoc _ _ _
      unfold pyStartsWith
      rw [hd]
      exact hasPrefixB_iff.mpr (List.take_left _ _)
    have hH : strEqB ("/api/tessie/" ++ vin ++ "/state") "/health" = false :=
      strEqB_false_of_startsWith_longer hB (by decide)
    have hS : strEqB ("/api/tessie/" ++ vin ++ "/state") "/status" = false :=
      strEqB_false_of_startsWith_longer hB (by decide)
    have hext : extractPathSuffix ("/api/tessie/" ++ vin ++ "/state")
        "/api/tessie" = String.mk (vin.data ++ "/state".data) := by
      have h1 : extractPathSuffix ("/api/tessie/" ++ vin ++ "/state")
          "/api/tessie"
          = String.mk ((vin.data ++ "/state".data).dropWhile
              (fun c => c == '/')) :=
        extract_tessie (vin.data ++ "/state".data)
      rw [h1, hvd, List.cons_append,
        dropWhile_cons_of_ne c0 (vt ++ "/state".data) (fun c => c == '/') hc0,
        ← List.cons_append, ← hvd]
    have hveh : strEqB (String.mk (vin.data ++ "/state".data)) "vehicles"
        = false :=
      list_beq_false_of_mem_not_mem
        (show ('/' : Char) ∈ vin.data ++ "/state".data from
          List.mem_append_right vin.data (by decide))
        (show ('/' : Char) ∉ "vehicles".data by decide)
    have hsfx : pyEndsWith (String.mk (vin.data ++ "/state".data)) "/state"
        = true := hasSuffixB_append
    have hfs : firstSegment (String.mk (vin.data ++ "/state".data)) = vin := by
      unfold firstSegment pySplitSlash
      rw [show (String.mk (vin.data ++ "/state".data)).data
          = vin.data ++ '/' :: "state".data from rfl]
      rw [splitChar_append hns, splitChar_of_not_mem (by decide)]
      rfl
    unfold fetchMulti
    rw [fetchTry_tessie_reduce _ _ _ hH hS hB, hext]
    have htok : (!truthyStr (some "tessie-key")) = false := rfl
    have hbm : isBodyMethod (pyUpper "GET") = false := rfl
    rw [htok, hbm]
    simp only [Bool.false_eq_true, if_false]
    unfold tessieRoutes
    rw [hveh, hsfx, hfs]
    simp only [Bool.false_eq_true, if_false, if_true]
    unfold finishCall callUpstream
    rw [hst]
    rfl
  · have hB : pyStartsWith ("/api/tessie/" ++ vin) "/api/tessie/" = true := by
      unfold pyStartsWith
      rw [show ("/api/tessie/" ++ vin).data
          = "/api/tessie/".data ++ vin.data from rfl]
      exact hasPrefixB_iff.mpr (List.take_left _ _)
    have hH : strEqB ("/api/tessie/" ++ vin) "/health" = false :=
      strEqB_false_of_startsWith_longer hB (by decide)
    have hS : strEqB ("/api/tessie/" ++ vin) "/status" = false :=
      strEqB_false_of_startsWith_longer hB (by decide)
    have hext : extractPathSuffix ("/api/tessie/" ++ vin) "/api/tessie"
        = vin := by
      have h1 : extractPathSuffix ("/api/tessie/" ++ vin) "/api/tessie"
          = String.mk (vin.data.dropWhile (fun c => c == '/')) :=
        extract_tessie vin.data
      rw [h1, hvd, dropWhile_cons_of_ne c0 vt (fun c => c == '/') hc0, ← hvd]
    have hveh : strEqB vin "vehicles" = false := strEqB_false_of_ne hnv
    have hsfx : pyEndsWith vin "/state" = false :=
      hasSuffixB_false_of_not_mem (by decide) hns
    have hbat : pyEndsWith vin "/battery" = false :=
      hasSuffixB_false_of_not_mem (by decide) hns
    have hpost : strEqB (pyUpper "GET") "POST" = false := rfl
    unfold fetchMulti
    rw [fetchTry_tessie_reduce _ _ _ hH hS hB, hext]
    have htok : (!truthyStr (some "tessie-key")) = false := rfl
    have hbm : isBodyMethod (pyUpper "GET") = false := rfl
    rw [htok, hbm]
    simp only [Bool.false_eq_true, if_false]
    unfold tessieRoutes
    rw [hveh, hsfx, hbat, hpost]
    simp only [Bool.and_false, Bool.false_eq_true, if_false]
  · have h3 : fetchTry ⟨"GET", "/api/tessie/vehicles", [], none, .ok .jNull⟩
        ⟨some "tessie-key", none, none, "na", none⟩ o
        = finishCall o (tessieListVehiclesCall true) := rfl
    unfold fetchMulti
    rw [h3]
    unfold finishCall
    cases callUpstream o (tessieListVehiclesCall true) <;> rfl

theorem C4_state_route_dispatch_witness :
    ("5YJ3E1EA7KF000000" : String).data ≠ []
    ∧ '/' ∉ ("5YJ3E1EA7KF000000" : String).data
    ∧ ("5YJ3E1EA7KF000000" : String) ≠ "vehicles"
    ∧ (fetchMulti ⟨"GET", "/api/tessie/" ++ "5YJ3E1EA7KF000000" ++ "/state",
        [], none, .ok .jNull⟩
      ⟨some "tessie-key", none, none, "na", none⟩
      (fun _ => .success (.jObj [("state", .jStr "online")]))
    = ⟨jsonResponse 200 (.jObj [("state", .jStr "online")]), 1,
       [tessieStateCall "5YJ3E1EA7KF000000"]⟩
    ∧ fetchMulti ⟨"GET", "/api/tessie/" ++ "5YJ3E1EA7KF000000", [], none,
        .ok .jNull⟩
      ⟨some "tessie-key", none, none, "na", none⟩
      (fun _ => .success (.jObj [("state", .jStr "online")]))
    = ⟨errorResponse 404 ("Tessie endpoint not found: " ++ "5YJ3E1EA7KF000000"),
       1, []⟩
    ∧ (fetchMulti ⟨"GET", "/api/tessie/vehicles", [], none, .ok .jNull⟩
      ⟨some "tessie-key", none, none, "na", none⟩
      (fun _ => .success (.jObj [("state", .jStr "online")]))).calls
    = [tessieListVehiclesCall true]) :=
  ⟨by decide, by decide, by decide,
   C4_state_route_dispatch "5YJ3E1EA7KF000000"
     (.jObj [("state", .jStr "online")])
     (fun _ => .success (.jObj [("state", .jStr "online")]))
     (by decide) (by decide) (by decide) rfl⟩
